import Mathlib

/-!
Shallow embedding of the sales-call auditing application (TypeScript sources
under src/): the deterministic conversion-score function and its helpers
(src/services/geminiService.ts), the retry wrapper (same file), the HTTP
proxy handler (src/api/gemini.ts), the Firestore converter
(src/services/firebaseService.ts) and the lead-strength utility
(src/utils/leadAnalytics.ts).

JavaScript numbers are modelled as rationals; Math.round is modelled as
jsRound q = floor (q + 1/2), which agrees with IEEE-754 Math.round on every
value these functions can produce.
-/

namespace CallCopy

/-- Embedding of the LeadType enum from src/types.ts. -/
inductive LeadType
| NEW_LEAD
| OLD_LEAD
deriving DecidableEq, Fintype

/-- Embedding of the RelationshipType enum from src/types.ts. -/
inductive RelationshipType
| LEAD
| CLIENT
deriving DecidableEq, Fintype

/-- The five boolean compliance checks of a CallAnalysis (src/types.ts). -/
structure Compliance where
  dmVerified : Bool
  needDiscovery : Bool
  priceAdherence : Bool
  objectionHandled : Bool
  hardCloseAttempted : Bool
deriving DecidableEq, Fintype

/-- Dynamic field access compliance[key] used by calculateDeterministicScore. -/
def Compliance.get (c : Compliance) : String → Bool
  | "dmVerified" => c.dmVerified
  | "needDiscovery" => c.needDiscovery
  | "priceAdherence" => c.priceAdherence
  | "objectionHandled" => c.objectionHandled
  | "hardCloseAttempted" => c.hardCloseAttempted
  | _ => false

/-- checklistKeys from calculateDeterministicScore (src/services/geminiService.ts). -/
def checklistKeys : List String :=
  ["dmVerified", "needDiscovery", "priceAdherence", "objectionHandled", "hardCloseAttempted"]

/-- applicableChecks: the checklist, with needDiscovery and dmVerified filtered
out for OLD_LEAD or CLIENT (src/services/geminiService.ts lines 84-100). -/
def applicableChecks (leadType : LeadType) (relationshipType : RelationshipType) :
    List String :=
  if leadType = LeadType.OLD_LEAD ∨ relationshipType = RelationshipType.CLIENT then
    checklistKeys.filter (fun key => !(["needDiscovery", "dmVerified"].contains key))
  else
    checklistKeys

/-- Math.round on the rationals: floor (q + 1/2). -/
def jsRound (q : ℚ) : ℤ := ⌊q + 1 / 2⌋

/-- The number of applicable checks that hold (the passed count of
calculateDeterministicScore). -/
def passedCount (compliance : Compliance) (leadType : LeadType)
    (relationshipType : RelationshipType) : ℕ :=
  ((applicableChecks leadType relationshipType).filter
    (fun key => compliance.get key == true)).length

/-- Embedding of calculateDeterministicScore
(src/services/geminiService.ts lines 76-117).  The two rejection branches
mirror the two successive if statements of the source; both multiply the
rounded pre-score and the final Math.round is applied at the end. -/
def calculateDeterministicScore (compliance : Compliance) (buyingSignals : ℕ)
    (leadType : LeadType) (relationshipType : RelationshipType)
    (dealOutcome : String) : ℤ :=
  let applicable := applicableChecks leadType relationshipType
  let passed := (applicable.filter (fun key => compliance.get key == true)).length
  let percentage : ℚ := ((passed : ℚ) / (applicable.length : ℚ)) * 70
  let buyingBoost : ℚ := ((min buyingSignals 5 : ℕ) : ℚ) * 6
  let finalScore0 : ℤ := min 100 (jsRound (percentage + buyingBoost))
  let afterHard : ℚ :=
    if dealOutcome = "HardRejection" then (finalScore0 : ℚ) * 0.15 else (finalScore0 : ℚ)
  let afterSoft : ℚ :=
    if dealOutcome = "SoftRejection" then afterHard * 0.6 else afterHard
  jsRound afterSoft

/-- The pre-rejection score as a function of the passed count, the number of
applicable checks and the capped buying-signal count. -/
def preScore (passed len capped : ℕ) : ℤ :=
  min 100 (jsRound (((passed : ℚ) / (len : ℚ)) * 70 + (capped : ℚ) * 6))

/-- The outcome scaling applied to the rounded pre-score. -/
def applyOutcome (dealOutcome : String) (s : ℤ) : ℤ :=
  let afterHard : ℚ := if dealOutcome = "HardRejection" then (s : ℚ) * 0.15 else (s : ℚ)
  let afterSoft : ℚ := if dealOutcome = "SoftRejection" then afterHard * 0.6 else afterHard
  jsRound afterSoft

theorem calculateDeterministicScore_eq (c : Compliance) (b : ℕ) (lt : LeadType)
    (rt : RelationshipType) (o : String) :
    calculateDeterministicScore c b lt rt o =
      applyOutcome o (preScore (passedCount c lt rt)
        (applicableChecks lt rt).length (min b 5)) := rfl

theorem jsRound_mono {q r : ℚ} (h : q ≤ r) : jsRound q ≤ jsRound r :=
  Int.floor_mono (by linarith)

theorem jsRound_intCast (n : ℤ) : jsRound (n : ℚ) = n := by
  unfold jsRound
  rw [add_comm, Int.floor_add_int]
  norm_num

theorem jsRound_nonneg {q : ℚ} (h : 0 ≤ q) : 0 ≤ jsRound q :=
  Int.le_floor.mpr (by push_cast; linarith)

theorem jsRound_le {q : ℚ} {n : ℤ} (h : q ≤ (n : ℚ)) : jsRound q ≤ n := by
  have hlt : jsRound q < n + 1 := by
    unfold jsRound
    rw [Int.floor_lt]
    push_cast
    linarith
  omega

theorem preScore_nonneg (passed len capped : ℕ) : 0 ≤ preScore passed len capped := by
  unfold preScore
  refine le_min (by norm_num) (jsRound_nonneg ?_)
  positivity

theorem preScore_le (passed len capped : ℕ) : preScore passed len capped ≤ 100 :=
  min_le_left _ _

theorem preScore_mono_passed {p p2 : ℕ} (len capped : ℕ) (h : p ≤ p2) :
    preScore p len capped ≤ preScore p2 len capped := by
  unfold preScore
  refine min_le_min le_rfl (jsRound_mono ?_)
  have hd : (p : ℚ) / (len : ℚ) ≤ (p2 : ℚ) / (len : ℚ) :=
    div_le_div_of_nonneg_right (by exact_mod_cast h) (by positivity)
  linarith

theorem preScore_mono_capped (p len : ℕ) {m m2 : ℕ} (h : m ≤ m2) :
    preScore p len m ≤ preScore p len m2 := by
  unfold preScore
  refine min_le_min le_rfl (jsRound_mono ?_)
  have hc : (m : ℚ) ≤ (m2 : ℚ) := by exact_mod_cast h
  linarith

theorem applyOutcome_eq_self {o : String} (ho1 : o ≠ "HardRejection")
    (ho2 : o ≠ "SoftRejection") (s : ℤ) : applyOutcome o s = s := by
  simp only [applyOutcome, if_neg ho1, if_neg ho2]
  exact jsRound_intCast s

theorem applyOutcome_hard (s : ℤ) :
    applyOutcome "HardRejection" s = jsRound ((s : ℚ) * 0.15) := by
  simp only [applyOutcome, if_neg (by decide : ¬("HardRejection" = "SoftRejection"))]
  simp

theorem applyOutcome_soft (s : ℤ) :
    applyOutcome "SoftRejection" s = jsRound ((s : ℚ) * 0.6) := by
  simp only [applyOutcome, if_neg (by decide : ¬("SoftRejection" = "HardRejection"))]
  simp

theorem applyOutcome_mono (o : String) {s s2 : ℤ} (h : s ≤ s2) :
    applyOutcome o s ≤ applyOutcome o s2 := by
  have hc : (s : ℚ) ≤ (s2 : ℚ) := by exact_mod_cast h
  simp only [applyOutcome]
  apply jsRound_mono
  split_ifs <;> norm_num <;> linarith

theorem applyOutcome_bounds (o : String) {s : ℤ} (h0 : 0 ≤ s) (h1 : s ≤ 100) :
    0 ≤ applyOutcome o s ∧ applyOutcome o s ≤ 100 := by
  have hc0 : (0 : ℚ) ≤ (s : ℚ) := by exact_mod_cast h0
  have hc1 : (s : ℚ) ≤ 100 := by exact_mod_cast h1
  simp only [applyOutcome]
  constructor
  · apply jsRound_nonneg
    split_ifs <;> norm_num <;> linarith
  · apply jsRound_le
    split_ifs <;> push_cast <;> norm_num <;> linarith

/-- The fully-true compliance record. -/
def cAllTrue : Compliance := ⟨true, true, true, true, true⟩

/-- The fully-false compliance record. -/
def cAllFalse : Compliance := ⟨false, false, false, false, false⟩

theorem applicableChecks_length_pos (lt : LeadType) (rt : RelationshipType) :
    0 < (applicableChecks lt rt).length := by
  revert lt rt
  decide

/-- Claim C1: for every compliance record, non-negative buying-signal count,
lead type, relationship type and deal-outcome string, calculateDeterministicScore
returns an integer in the range from 0 to 100. -/
theorem claim_C1 (c : Compliance) (b : ℕ) (lt : LeadType) (rt : RelationshipType)
    (o : String) :
    0 ≤ calculateDeterministicScore c b lt rt o ∧
      calculateDeterministicScore c b lt rt o ≤ 100 := by
  rw [calculateDeterministicScore_eq]
  exact applyOutcome_bounds o (preScore_nonneg _ _ _) (preScore_le _ _ _)

/-- Claim C2: with lead type, relationship type and deal outcome fixed, the
score is monotonically non-decreasing in the number of applicable checks that
pass, and, with the compliance record also fixed, monotonically non-decreasing
in the buying-signal count. -/
theorem claim_C2 (c c2 : Compliance) (b b2 : ℕ) (lt : LeadType)
    (rt : RelationshipType) (o : String) :
    (passedCount c lt rt ≤ passedCount c2 lt rt →
      calculateDeterministicScore c b lt rt o ≤
        calculateDeterministicScore c2 b lt rt o) ∧
    (b ≤ b2 →
      calculateDeterministicScore c b lt rt o ≤
        calculateDeterministicScore c b2 lt rt o) := by
  constructor
  · intro hp
    rw [calculateDeterministicScore_eq, calculateDeterministicScore_eq]
    exact applyOutcome_mono o (preScore_mono_passed _ _ hp)
  · intro hb
    rw [calculateDeterministicScore_eq, calculateDeterministicScore_eq]
    exact applyOutcome_mono o (preScore_mono_capped _ _ (min_le_min hb le_rfl))

theorem claim_C2_witness :
    (calculateDeterministicScore cAllFalse 0 LeadType.NEW_LEAD RelationshipType.LEAD
        "Neutral" ≤
      calculateDeterministicScore cAllTrue 0 LeadType.NEW_LEAD RelationshipType.LEAD
        "Neutral") ∧
    (calculateDeterministicScore cAllTrue 0 LeadType.NEW_LEAD RelationshipType.LEAD
        "Neutral" ≤
      calculateDeterministicScore cAllTrue 3 LeadType.NEW_LEAD RelationshipType.LEAD
        "Neutral") :=
  ⟨(claim_C2 cAllFalse cAllTrue 0 0 LeadType.NEW_LEAD RelationshipType.LEAD
      "Neutral").1 (by decide),
   (claim_C2 cAllTrue cAllTrue 0 3 LeadType.NEW_LEAD RelationshipType.LEAD
      "Neutral").2 (by decide)⟩

/-- Claim C3 as stated is false: with all five checks passed, zero buying
signals, NEW_LEAD and LEAD, the non-rejection score is 70, and the
HardRejection score is Math.round(70 * 0.15) = Math.round(10.5) = 11, which is
not exactly 15 percent of 70 (that would be 10.5). -/
theorem claim_C3_counterexample :
    ¬ ((calculateDeterministicScore cAllTrue 0 LeadType.NEW_LEAD
          RelationshipType.LEAD "HardRejection" : ℚ) =
        (15 / 100) *
          (calculateDeterministicScore cAllTrue 0 LeadType.NEW_LEAD
            RelationshipType.LEAD "Neutral" : ℚ)) := by
  have hp : passedCount cAllTrue LeadType.NEW_LEAD RelationshipType.LEAD = 5 := by decide
  have hl : (applicableChecks LeadType.NEW_LEAD RelationshipType.LEAD).length = 5 := by
    decide
  have h70 : preScore 5 5 (min 0 5) = 70 := by norm_num [preScore, jsRound]
  have hH : calculateDeterministicScore cAllTrue 0 LeadType.NEW_LEAD
      RelationshipType.LEAD "HardRejection" = 11 := by
    rw [calculateDeterministicScore_eq, hp, hl, h70, applyOutcome_hard]
    norm_num [jsRound]
  have hN : calculateDeterministicScore cAllTrue 0 LeadType.NEW_LEAD
      RelationshipType.LEAD "Neutral" = 70 := by
    rw [calculateDeterministicScore_eq, hp, hl, h70,
      applyOutcome_eq_self (by decide) (by decide)]
  rw [hH, hN]
  norm_num

/-- Claim C3 (amended): the HardRejection score is Math.round of 15 percent of
the non-rejection score, the SoftRejection score is Math.round of 60 percent of
it, and any other outcome leaves the rounded pre-rejection score unchanged. -/
theorem claim_C3 (c : Compliance) (b : ℕ) (lt : LeadType) (rt : RelationshipType)
    (o : String) (ho1 : o ≠ "HardRejection") (ho2 : o ≠ "SoftRejection") :
    calculateDeterministicScore c b lt rt "HardRejection" =
      jsRound ((15 / 100) * (calculateDeterministicScore c b lt rt o : ℚ)) ∧
    calculateDeterministicScore c b lt rt "SoftRejection" =
      jsRound ((60 / 100) * (calculateDeterministicScore c b lt rt o : ℚ)) ∧
    calculateDeterministicScore c b lt rt o =
      preScore (passedCount c lt rt) (applicableChecks lt rt).length (min b 5) := by
  have hself : calculateDeterministicScore c b lt rt o =
      preScore (passedCount c lt rt) (applicableChecks lt rt).length (min b 5) := by
    rw [calculateDeterministicScore_eq, applyOutcome_eq_self ho1 ho2]
  refine ⟨?_, ?_, hself⟩
  · rw [calculateDeterministicScore_eq, applyOutcome_hard, hself]
    congr 1
    ring_nf
  · rw [calculateDeterministicScore_eq, applyOutcome_soft, hself]
    congr 1
    ring_nf

theorem claim_C3_witness :
    calculateDeterministicScore cAllFalse 2 LeadType.OLD_LEAD RelationshipType.LEAD
        "HardRejection" =
      jsRound ((15 / 100) *
        (calculateDeterministicScore cAllFalse 2 LeadType.OLD_LEAD
          RelationshipType.LEAD "Neutral" : ℚ)) ∧
    calculateDeterministicScore cAllFalse 2 LeadType.OLD_LEAD RelationshipType.LEAD
        "SoftRejection" =
      jsRound ((60 / 100) *
        (calculateDeterministicScore cAllFalse 2 LeadType.OLD_LEAD
          RelationshipType.LEAD "Neutral" : ℚ)) ∧
    calculateDeterministicScore cAllFalse 2 LeadType.OLD_LEAD RelationshipType.LEAD
        "Neutral" =
      preScore (passedCount cAllFalse LeadType.OLD_LEAD RelationshipType.LEAD)
        (applicableChecks LeadType.OLD_LEAD RelationshipType.LEAD).length (min 2 5) :=
  claim_C3 cAllFalse 2 LeadType.OLD_LEAD RelationshipType.LEAD "Neutral"
    (by decide) (by decide)

/-- Modelled directly from the wording of claim C4:
min(100, round((passed / applicable) * 70 + min(buyingSignals, 5) * 6)). -/
def specPreScoreFormula (c : Compliance) (b : ℕ) (lt : LeadType)
    (rt : RelationshipType) : ℤ :=
  min 100 (jsRound (((passedCount c lt rt : ℚ) /
    ((applicableChecks lt rt).length : ℚ)) * 70 + ((min b 5 : ℕ) : ℚ) * 6))

/-- Claim C4: under a non-rejection outcome the score equals
min(100, round((passed / applicable) * 70 + min(buyingSignals, 5) * 6)); the
compliance checks contribute at most 70 points and the buying signals at most
30 points. -/
theorem claim_C4 (c : Compliance) (b : ℕ) (lt : LeadType) (rt : RelationshipType)
    (o : String) (ho1 : o ≠ "HardRejection") (ho2 : o ≠ "SoftRejection") :
    calculateDeterministicScore c b lt rt o = specPreScoreFormula c b lt rt ∧
    ((passedCount c lt rt : ℚ) / ((applicableChecks lt rt).length : ℚ)) * 70 ≤ 70 ∧
    ((min b 5 : ℕ) : ℚ) * 6 ≤ 30 := by
  refine ⟨?_, ?_, ?_⟩
  · rw [calculateDeterministicScore_eq, applyOutcome_eq_self ho1 ho2]
    rfl
  · have hlen : 0 < ((applicableChecks lt rt).length : ℚ) := by
      exact_mod_cast applicableChecks_length_pos lt rt
    have hple : passedCount c lt rt ≤ (applicableChecks lt rt).length :=
      List.length_filter_le _ _
    have hdiv : (passedCount c lt rt : ℚ) / ((applicableChecks lt rt).length : ℚ) ≤ 1 :=
      (div_le_one hlen).mpr (by exact_mod_cast hple)
    linarith
  · have hm : ((min b 5 : ℕ) : ℚ) ≤ 5 := by
      have : min b 5 ≤ 5 := min_le_right _ _
      exact_mod_cast this
    linarith

theorem claim_C4_witness :
    calculateDeterministicScore cAllTrue 2 LeadType.NEW_LEAD RelationshipType.LEAD
        "Neutral" =
      specPreScoreFormula cAllTrue 2 LeadType.NEW_LEAD RelationshipType.LEAD ∧
    ((passedCount cAllTrue LeadType.NEW_LEAD RelationshipType.LEAD : ℚ) /
      ((applicableChecks LeadType.NEW_LEAD RelationshipType.LEAD).length : ℚ)) * 70 ≤
        70 ∧
    ((min 2 5 : ℕ) : ℚ) * 6 ≤ 30 :=
  claim_C4 cAllTrue 2 LeadType.NEW_LEAD RelationshipType.LEAD "Neutral"
    (by decide) (by decide)

/-- Indicator of a boolean check used to express the passed count. -/
def boolToNat (b : Bool) : ℕ := if b then 1 else 0

/-- Claim C5: exactly when the lead type is OLD_LEAD or the relationship type
is CLIENT, the applicable checklist reduces to priceAdherence, objectionHandled
and hardCloseAttempted, dropping dmVerified and needDiscovery from both the
denominator and the passed count; otherwise all five checks count. -/
theorem claim_C5 : ∀ (lt : LeadType) (rt : RelationshipType) (c : Compliance),
    applicableChecks lt rt =
      (if lt = LeadType.OLD_LEAD ∨ rt = RelationshipType.CLIENT then
        ["priceAdherence", "objectionHandled", "hardCloseAttempted"]
      else checklistKeys) ∧
    passedCount c lt rt =
      (if lt = LeadType.OLD_LEAD ∨ rt = RelationshipType.CLIENT then
        boolToNat c.priceAdherence + boolToNat c.objectionHandled +
          boolToNat c.hardCloseAttempted
      else
        boolToNat c.dmVerified + boolToNat c.needDiscovery +
          boolToNat c.priceAdherence + boolToNat c.objectionHandled +
          boolToNat c.hardCloseAttempted) := by
  decide

/-- Claim C10: the applicable checklist always has length 5 (fresh prospect) or
3 (OLD_LEAD or CLIENT), hence is never empty, so the percentage division never
divides by zero. -/
theorem claim_C10 : ∀ (lt : LeadType) (rt : RelationshipType),
    ((applicableChecks lt rt).length = 5 ∨ (applicableChecks lt rt).length = 3) ∧
    ((applicableChecks lt rt).length = 3 ↔
      lt = LeadType.OLD_LEAD ∨ rt = RelationshipType.CLIENT) ∧
    (applicableChecks lt rt).length ≠ 0 := by
  decide

/-- A JavaScript error value as inspected by withRetry: its message string,
its status field and the code of its nested error object when present
(src/services/geminiService.ts lines 18-31). -/
structure JsError where
  message : String
  status : Option ℕ
  errorCode : Option ℕ
deriving DecidableEq

/-- Character-list matching at the head, used to model String.includes. -/
def charsMatchAt : List Char → List Char → Bool
  | [], _ => true
  | _ :: _, [] => false
  | p :: ps, c :: cs => p == c && charsMatchAt ps cs

/-- Character-list containment, used to model String.includes. -/
def charsContain (pat : List Char) : List Char → Bool
  | [] => pat.isEmpty
  | c :: cs => charsMatchAt pat (c :: cs) || charsContain pat cs

/-- Model of JavaScript String.prototype.includes. -/
def strIncludes (s pat : String) : Bool := charsContain pat.toList s.toList

/-- The isInternalError test of withRetry: message contains the text 500, or
status is 500, or the nested error object carries code 500. -/
def isInternalError (err : JsError) : Bool :=
  strIncludes err.message "500" || err.status == some 500 || err.errorCode == some 500

/-- Embedding of withRetry (src/services/geminiService.ts lines 18-31).  The
wrapped callback is modelled as a function from the attempt index to that
invocation's outcome; the retries > 0 guard of the source appears as the
pattern match on the retries counter, and the setTimeout delay is not
modelled. -/
def withRetryAux {T : Type} (fn : ℕ → Except JsError T) :
    ℕ → ℕ → Except JsError T
  | attempt, 0 =>
    match fn attempt with
    | Except.ok v => Except.ok v
    | Except.error err => Except.error err
  | attempt, retries + 1 =>
    match fn attempt with
    | Except.ok v => Except.ok v
    | Except.error err =>
      if isInternalError err then withRetryAux fn (attempt + 1) retries
      else Except.error err

/-- The default retry budget of withRetry (retries = 3 in the source). -/
def defaultRetries : ℕ := 3

/-- withRetry called as in the source, with the default retry budget. -/
def withRetry {T : Type} (fn : ℕ → Except JsError T) : Except JsError T :=
  withRetryAux fn 0 defaultRetries

/-- A 500-class error: internal by all three tests. -/
def err500 : JsError := ⟨"500 Internal Server Error", some 500, none⟩

/-- A non-500 error: internal by none of the three tests. -/
def errQuota : JsError := ⟨"quota exceeded", none, none⟩

/-- A callback failing with a 500 error on attempts 0, 1 and 2 and succeeding
on attempt 3. -/
def fnFlaky : ℕ → Except JsError ℕ :=
  fun n => if n < 3 then Except.error err500 else Except.ok 42

/-- Claim C6 as stated is false: recovery is not limited to one retry.  A
callback that fails with a 500 error on the first attempt and on the single
permitted retry would fail under a one-retry wrapper, yet withRetry (whose
retry budget is 3) still recovers and returns the attempt-3 success. -/
theorem claim_C6_counterexample :
    withRetry fnFlaky = Except.ok 42 ∧
      withRetryAux fnFlaky 0 1 = Except.error err500 := by
  constructor <;> rfl

/-- Claim C6 (amended): recovery is limited to at most three retries (the
source default), performed only when the failure is identified as a 500 error
(message containing 500, status 500, or nested error code 500); a failure not
so identified is rethrown immediately without any retry, and a successful
result is returned unchanged. -/
theorem claim_C6 {T : Type} (fn : ℕ → Except JsError T) (v : T) (e : JsError) :
    (fn 0 = Except.ok v → withRetry fn = Except.ok v) ∧
    (fn 0 = Except.error e → isInternalError e = false →
      withRetry fn = Except.error e) ∧
    (fn 0 = Except.error e → isInternalError e = true → fn 1 = Except.ok v →
      withRetry fn = Except.ok v) ∧
    ((∀ n, n < 3 → ∃ e2, fn n = Except.error e2 ∧ isInternalError e2 = true) →
      fn 3 = Except.error e → withRetry fn = Except.error e) := by
  refine ⟨?_, ?_, ?_, ?_⟩
  · intro h0
    simp [withRetry, defaultRetries, withRetryAux, h0]
  · intro h0 hni
    simp [withRetry, defaultRetries, withRetryAux, h0, hni]
  · intro h0 hi h1
    simp [withRetry, defaultRetries, withRetryAux, h0, hi, h1]
  · intro hall h3
    obtain ⟨e0, h0, hi0⟩ := hall 0 (by omega)
    obtain ⟨e1, h1, hi1⟩ := hall 1 (by omega)
    obtain ⟨e2, h2, hi2⟩ := hall 2 (by omega)
    simp [withRetry, defaultRetries, withRetryAux, h0, hi0, h1, hi1, h2, hi2, h3]

/-- A callback that always succeeds with 7. -/
def fnOk : ℕ → Except JsError ℕ := fun _ => Except.ok 7

/-- A callback that always fails with a non-500 error. -/
def fnQuota : ℕ → Except JsError ℕ := fun _ => Except.error errQuota

/-- A callback that fails with a 500 error on attempt 0 and succeeds with 9
afterwards. -/
def fnRecover : ℕ → Except JsError ℕ :=
  fun n => if n = 0 then Except.error err500 else Except.ok 9

/-- A callback that always fails with a 500 error. -/
def fnAlways500 : ℕ → Except JsError ℕ := fun _ => Except.error err500

theorem claim_C6_witness :
    withRetry fnOk = Except.ok 7 ∧
    withRetry fnQuota = Except.error errQuota ∧
    withRetry fnRecover = Except.ok 9 ∧
    withRetry fnAlways500 = Except.error err500 :=
  ⟨(claim_C6 fnOk 7 errQuota).1 rfl,
   (claim_C6 fnQuota 7 errQuota).2.1 rfl rfl,
   (claim_C6 fnRecover 9 err500).2.2.1 rfl rfl rfl,
   (claim_C6 fnAlways500 7 err500).2.2.2
     (fun _ _ => ⟨err500, rfl, rfl⟩) rfl⟩

/-- Truthiness of an optional JavaScript string: undefined and the empty
string are falsy. -/
def truthyStr : Option String → Bool
  | none => false
  | some s => !s.isEmpty

/-- The request body of the proxy endpoint (src/api/gemini.ts): the model
name, the contents and the config, each possibly absent.  The contents and
config payloads are modelled opaquely as strings. -/
structure GenRequestBody where
  model : Option String
  contents : Option String
  config : Option String
deriving DecidableEq

/-- A successful inference response; its text field may be absent. -/
structure GenSuccess where
  text : Option String
deriving DecidableEq

/-- An inference failure; error.message may be absent. -/
structure GenFailure where
  message : Option String
deriving DecidableEq

/-- The response sent by the proxy handler, one constructor per exit path of
the source. -/
inductive HandlerResponse
| methodNotAllowed
| missingModelOrContents
| okText (text : Option String)
| genFailed (details : String)
deriving DecidableEq

/-- The HTTP status code attached to each handler response in the source. -/
def HandlerResponse.status : HandlerResponse → ℕ
  | methodNotAllowed => 405
  | missingModelOrContents => 400
  | okText _ => 200
  | genFailed _ => 500

/-- Embedding of the default handler of src/api/gemini.ts.  The external call
ai.models.generateContent is modelled as a function argument receiving the
forwarded model, contents and config. -/
def handler (method : String) (body : GenRequestBody)
    (generateContent : Option String → Option String → Option String →
      Except GenFailure GenSuccess) : HandlerResponse :=
  if method ≠ "POST" then HandlerResponse.methodNotAllowed
  else if !truthyStr body.model || !truthyStr body.contents then
    HandlerResponse.missingModelOrContents
  else
    match generateContent body.model body.contents body.config with
    | Except.ok r => HandlerResponse.okText r.text
    | Except.error e => HandlerResponse.genFailed (e.message.getD "Unknown error")

/-- Claim C7: a non-POST request gets status 405 without the inference API
being consulted; a POST whose body lacks model or contents gets status 400
without the inference API being consulted; otherwise model, contents and
config are forwarded and the handler answers 200 with the response text on
success or 500 with the error details on failure. -/
theorem claim_C7 (method : String) (body : GenRequestBody)
    (api api2 : Option String → Option String → Option String →
      Except GenFailure GenSuccess) (r : GenSuccess) (e : GenFailure) :
    (method ≠ "POST" →
      handler method body api = HandlerResponse.methodNotAllowed ∧
      (handler method body api).status = 405 ∧
      handler method body api = handler method body api2) ∧
    (method = "POST" →
      (truthyStr body.model = false ∨ truthyStr body.contents = false) →
      handler method body api = HandlerResponse.missingModelOrContents ∧
      (handler method body api).status = 400 ∧
      handler method body api = handler method body api2) ∧
    (method = "POST" → truthyStr body.model = true → truthyStr body.contents = true →
      api body.model body.contents body.config = Except.ok r →
      handler method body api = HandlerResponse.okText r.text ∧
      (handler method body api).status = 200) ∧
    (method = "POST" → truthyStr body.model = true → truthyStr body.contents = true →
      api body.model body.contents body.config = Except.error e →
      handler method body api = HandlerResponse.genFailed
        (e.message.getD "Unknown error") ∧
      (handler method body api).status = 500) := by
  refine ⟨?_, ?_, ?_, ?_⟩
  · intro hm
    simp [handler, hm, HandlerResponse.status]
  · intro hm hmiss
    rcases hmiss with hmiss | hmiss <;>
      simp [handler, hm, hmiss, HandlerResponse.status]
  · intro hm hmod hcon hapi
    simp [handler, hm, hmod, hcon, hapi, HandlerResponse.status]
  · intro hm hmod hcon hapi
    simp [handler, hm, hmod, hcon, hapi, HandlerResponse.status]

/-- A request body with all three fields present. -/
def bodyFull : GenRequestBody := ⟨some "gemini-2.5-flash", some "parts", some "cfg"⟩

/-- A request body lacking the model field. -/
def bodyNoModel : GenRequestBody := ⟨none, some "parts", none⟩

/-- An inference stub that succeeds with the text hello. -/
def apiOk : Option String → Option String → Option String →
    Except GenFailure GenSuccess := fun _ _ _ => Except.ok ⟨some "hello"⟩

/-- An inference stub that fails with the message boom. -/
def apiFail : Option String → Option String → Option String →
    Except GenFailure GenSuccess := fun _ _ _ => Except.error ⟨some "boom"⟩

theorem claim_C7_witness :
    handler "GET" bodyFull apiOk = HandlerResponse.methodNotAllowed ∧
    handler "POST" bodyNoModel apiOk = HandlerResponse.missingModelOrContents ∧
    handler "POST" bodyFull apiOk = HandlerResponse.okText (some "hello") ∧
    handler "POST" bodyFull apiFail = HandlerResponse.genFailed "boom" :=
  ⟨((claim_C7 "GET" bodyFull apiOk apiOk ⟨some "hello"⟩ ⟨some "boom"⟩).1
      (by decide)).1,
   ((claim_C7 "POST" bodyNoModel apiOk apiOk ⟨some "hello"⟩ ⟨some "boom"⟩).2.1
      rfl (Or.inl rfl)).1,
   ((claim_C7 "POST" bodyFull apiOk apiOk ⟨some "hello"⟩ ⟨some "boom"⟩).2.2.1
      rfl rfl rfl rfl).1,
   ((claim_C7 "POST" bodyFull apiFail apiFail ⟨some "hello"⟩ ⟨some "boom"⟩).2.2.2
      rfl rfl rfl rfl).1⟩

/-- The optional compliance sub-document of a stored call report. -/
structure ComplianceDoc where
  dmVerified : Option Bool
  needDiscovery : Option Bool
  priceAdherence : Option Bool
  objectionHandled : Option Bool
  hardCloseAttempted : Option Bool
deriving DecidableEq

/-- The empty compliance sub-document (the fallback object of the source). -/
def emptyComplianceDoc : ComplianceDoc := ⟨none, none, none, none, none⟩

/-- The optional feedback sub-document of a stored call report; the items of
each list are modelled opaquely as strings. -/
structure FeedbackDoc where
  strengths : Option (List String)
  weaknesses : Option (List String)
  actionableSteps : Option (List String)
  missedOpportunities : Option (List String)
deriving DecidableEq

/-- The empty feedback sub-document (the fallback object of the source). -/
def emptyFeedbackDoc : FeedbackDoc := ⟨none, none, none, none⟩

/-- The Date value computed by the converter: from the createdAt timestamp,
from the uploadDate string, or new Date(0). -/
inductive DateVal
| fromTimestamp (t : ℤ)
| fromUploadDate (s : String)
| epoch
deriving DecidableEq

/-- The raw document data read by callAnalysisConverter.fromFirestore
(src/services/firebaseService.ts).  Fields the converter copies without
defaulting are modelled opaquely as optional strings or integers; createdAt
stands for an optional Firestore timestamp. -/
structure FirestoreCallDoc where
  uploadDate : Option String
  agentId : Option String
  agentName : Option String
  clientName : Option String
  clientPhone : Option String
  clientConcern : Option String
  duration : Option String
  conversionScore : Option ℤ
  summary : Option String
  sentiment : Option String
  metrics : Option String
  compliance : Option ComplianceDoc
  transcript : Option (List String)
  feedback : Option FeedbackDoc
  deletedByResponder : Option Bool
  createdAt : Option ℤ
deriving DecidableEq

/-- The record returned by callAnalysisConverter.fromFirestore, with the
nested feedback lists flattened into four fields. -/
structure CallRecord where
  id : String
  uploadDate : Option String
  agentId : String
  agentName : String
  clientName : Option String
  clientPhone : String
  clientConcern : String
  duration : Option String
  conversionScore : Option ℤ
  summary : Option String
  sentiment : Option String
  metrics : Option String
  compliance : Compliance
  transcript : List String
  strengths : List String
  weaknesses : List String
  actionableSteps : List String
  missedOpportunities : List String
  deletedByResponder : Bool
  createdAt : DateVal
deriving DecidableEq

/-- The JavaScript or-default on an optional string: undefined and the empty
string fall back to the default. -/
def jsOrStr (o : Option String) (d : String) : String :=
  match o with
  | some s => if s.isEmpty then d else s
  | none => d

/-- Embedding of callAnalysisConverter.fromFirestore
(src/services/firebaseService.ts lines 161-205).  The fields of the result
are listed in the order of the CallRecord structure. -/
def fromFirestore (snapshotId : String) (data : FirestoreCallDoc) : CallRecord :=
  let complianceData := data.compliance.getD emptyComplianceDoc
  let feedbackData := data.feedback.getD emptyFeedbackDoc
  let createdAtDate : DateVal :=
    match data.createdAt with
    | some t => DateVal.fromTimestamp t
    | none =>
      match data.uploadDate with
      | some u => if u.isEmpty then DateVal.epoch else DateVal.fromUploadDate u
      | none => DateVal.epoch
  ⟨snapshotId,
   data.uploadDate,
   jsOrStr data.agentId "",
   jsOrStr data.agentName "Unknown Agent",
   data.clientName,
   jsOrStr data.clientPhone "",
   jsOrStr data.clientConcern "",
   data.duration,
   data.conversionScore,
   data.summary,
   data.sentiment,
   data.metrics,
   ⟨complianceData.dmVerified.getD false,
    complianceData.needDiscovery.getD false,
    complianceData.priceAdherence.getD false,
    complianceData.objectionHandled.getD false,
    complianceData.hardCloseAttempted.getD false⟩,
   data.transcript.getD [],
   feedbackData.strengths.getD [],
   feedbackData.weaknesses.getD [],
   feedbackData.actionableSteps.getD [],
   feedbackData.missedOpportunities.getD [],
   data.deletedByResponder.getD false,
   createdAtDate⟩

/-- Claim C8: fromFirestore defaults the five compliance booleans to false
when missing, the four feedback lists and the transcript to empty lists when
missing, agentId to the empty string, agentName to Unknown Agent, and
deletedByResponder to false. -/
theorem claim_C8 (id : String) (data : FirestoreCallDoc) :
    ((data.compliance = none →
      (fromFirestore id data).compliance = ⟨false, false, false, false, false⟩) ∧
     (∀ cd, data.compliance = some cd →
       (cd.dmVerified = none →
         (fromFirestore id data).compliance.dmVerified = false) ∧
       (cd.needDiscovery = none →
         (fromFirestore id data).compliance.needDiscovery = false) ∧
       (cd.priceAdherence = none →
         (fromFirestore id data).compliance.priceAdherence = false) ∧
       (cd.objectionHandled = none →
         (fromFirestore id data).compliance.objectionHandled = false) ∧
       (cd.hardCloseAttempted = none →
         (fromFirestore id data).compliance.hardCloseAttempted = false))) ∧
    ((data.feedback = none →
       (fromFirestore id data).strengths = [] ∧
       (fromFirestore id data).weaknesses = [] ∧
       (fromFirestore id data).actionableSteps = [] ∧
       (fromFirestore id data).missedOpportunities = []) ∧
     (∀ fd, data.feedback = some fd →
       (fd.strengths = none → (fromFirestore id data).strengths = []) ∧
       (fd.weaknesses = none → (fromFirestore id data).weaknesses = []) ∧
       (fd.actionableSteps = none → (fromFirestore id data).actionableSteps = []) ∧
       (fd.missedOpportunities = none →
         (fromFirestore id data).missedOpportunities = []))) ∧
    (data.transcript = none → (fromFirestore id data).transcript = []) ∧
    (data.agentId = none → (fromFirestore id data).agentId = "") ∧
    (data.agentName = none → (fromFirestore id data).agentName = "Unknown Agent") ∧
    (data.deletedByResponder = none →
      (fromFirestore id data).deletedByResponder = false) := by
  refine ⟨⟨?_, ?_⟩, ⟨?_, ?_⟩, ?_, ?_, ?_, ?_⟩
  · intro h
    simp [fromFirestore, h, emptyComplianceDoc]
  · intro cd hcd
    refine ⟨?_, ?_, ?_, ?_, ?_⟩ <;> intro h <;> simp [fromFirestore, hcd, h]
  · intro h
    simp [fromFirestore, h, emptyFeedbackDoc]
  · intro fd hfd
    refine ⟨?_, ?_, ?_, ?_⟩ <;> intro h <;> simp [fromFirestore, hfd, h]
  · intro h
    simp [fromFirestore, h]
  · intro h
    simp [fromFirestore, h, jsOrStr]
  · intro h
    simp [fromFirestore, h, jsOrStr]
  · intro h
    simp [fromFirestore, h]

/-- A stored document with every field absent. -/
def emptyCallDoc : FirestoreCallDoc :=
  ⟨none, none, none, none, none, none, none, none, none, none, none, none,
   none, none, none, none⟩

theorem claim_C8_witness :
    (fromFirestore "doc1" emptyCallDoc).compliance =
      ⟨false, false, false, false, false⟩ ∧
    (fromFirestore "doc1" emptyCallDoc).strengths = [] ∧
    (fromFirestore "doc1" emptyCallDoc).weaknesses = [] ∧
    (fromFirestore "doc1" emptyCallDoc).actionableSteps = [] ∧
    (fromFirestore "doc1" emptyCallDoc).missedOpportunities = [] ∧
    (fromFirestore "doc1" emptyCallDoc).transcript = [] ∧
    (fromFirestore "doc1" emptyCallDoc).agentId = "" ∧
    (fromFirestore "doc1" emptyCallDoc).agentName = "Unknown Agent" ∧
    (fromFirestore "doc1" emptyCallDoc).deletedByResponder = false := by
  have h := claim_C8 "doc1" emptyCallDoc
  have hfb := h.2.1.1 rfl
  exact ⟨h.1.1 rfl, hfb.1, hfb.2.1, hfb.2.2.1, hfb.2.2.2,
    h.2.2.1 rfl, h.2.2.2.1 rfl, h.2.2.2.2.1 rfl, h.2.2.2.2.2 rfl⟩

/-- The four metric scores read by calculateLeadStrength
(src/utils/leadAnalytics.ts). -/
structure LeadMetrics where
  productKnowledgeScore : ℚ
  persuasionScore : ℚ
  activeListeningScore : ℚ
  clarityScore : ℚ
deriving DecidableEq

/-- The result of calculateLeadStrength: the rounded score, the label and the
display color. -/
structure LeadStrength where
  score : ℤ
  label : String
  color : String
deriving DecidableEq

/-- Embedding of calculateLeadStrength (src/utils/leadAnalytics.ts lines
8-36), with the source weights 0.3, 0.3, 0.2, 0.1, 0.1 for product knowledge,
persuasion, active listening, clarity and objection handling. -/
def calculateLeadStrength (metrics : LeadMetrics) (objectionHandled : Bool) :
    LeadStrength :=
  let score := jsRound
    (metrics.productKnowledgeScore * 0.3 +
     metrics.persuasionScore * 0.3 +
     metrics.activeListeningScore * 0.2 +
     metrics.clarityScore * 0.1 +
     (if objectionHandled then (100 : ℚ) else 0) * 0.1)
  if score ≥ 75 then ⟨score, "Hot", "#20b384"⟩
  else if score ≥ 45 then ⟨score, "Warm", "#F59E0B"⟩
  else ⟨score, "Cold", "#E11D48"⟩

/-- The branch of calculateLeadStrength selecting the label and color from
the rounded score. -/
def leadStrengthOfScore (s : ℤ) : LeadStrength :=
  if s ≥ 75 then ⟨s, "Hot", "#20b384"⟩
  else if s ≥ 45 then ⟨s, "Warm", "#F59E0B"⟩
  else ⟨s, "Cold", "#E11D48"⟩

theorem calculateLeadStrength_eq (m : LeadMetrics) (oh : Bool) :
    calculateLeadStrength m oh = leadStrengthOfScore (jsRound
      (m.productKnowledgeScore * 0.3 + m.persuasionScore * 0.3 +
       m.activeListeningScore * 0.2 + m.clarityScore * 0.1 +
       (if oh then (100 : ℚ) else 0) * 0.1)) := rfl

theorem leadStrengthOfScore_score (s : ℤ) : (leadStrengthOfScore s).score = s := by
  unfold leadStrengthOfScore
  split_ifs <;> rfl

theorem leadStrengthOfScore_hot (s : ℤ) :
    (leadStrengthOfScore s).label = "Hot" ↔ 75 ≤ s := by
  unfold leadStrengthOfScore
  split_ifs with h1 h2 <;> simp_all [not_le]

theorem leadStrengthOfScore_warm (s : ℤ) :
    (leadStrengthOfScore s).label = "Warm" ↔ 45 ≤ s ∧ s < 75 := by
  unfold leadStrengthOfScore
  split_ifs with h1 h2 <;> simp_all [not_le]

theorem leadStrengthOfScore_cold (s : ℤ) :
    (leadStrengthOfScore s).label = "Cold" ↔ s < 45 := by
  unfold leadStrengthOfScore
  split_ifs with h1 h2 <;> simp_all [not_le]
  omega

/-- Claim C9: with all four metric scores in the range 0 to 100, the lead
strength score is the rounded weighted sum 0.3 product knowledge +
0.3 persuasion + 0.2 active listening + 0.1 clarity + 0.1 (100 if the
objection was handled else 0), lies in the range 0 to 100, and the label is
Hot exactly when the score is at least 75, Warm exactly when it is at least 45
and below 75, and Cold otherwise. -/
theorem claim_C9 (m : LeadMetrics) (oh : Bool)
    (h1 : 0 ≤ m.productKnowledgeScore) (h2 : m.productKnowledgeScore ≤ 100)
    (h3 : 0 ≤ m.persuasionScore) (h4 : m.persuasionScore ≤ 100)
    (h5 : 0 ≤ m.activeListeningScore) (h6 : m.activeListeningScore ≤ 100)
    (h7 : 0 ≤ m.clarityScore) (h8 : m.clarityScore ≤ 100) :
    0 ≤ (calculateLeadStrength m oh).score ∧
    (calculateLeadStrength m oh).score ≤ 100 ∧
    (calculateLeadStrength m oh).score = jsRound
      ((3 / 10) * m.productKnowledgeScore + (3 / 10) * m.persuasionScore +
       (2 / 10) * m.activeListeningScore + (1 / 10) * m.clarityScore +
       (1 / 10) * (if oh then (100 : ℚ) else 0)) ∧
    ((calculateLeadStrength m oh).label = "Hot" ↔
      75 ≤ (calculateLeadStrength m oh).score) ∧
    ((calculateLeadStrength m oh).label = "Warm" ↔
      45 ≤ (calculateLeadStrength m oh).score ∧
        (calculateLeadStrength m oh).score < 75) ∧
    ((calculateLeadStrength m oh).label = "Cold" ↔
      (calculateLeadStrength m oh).score < 45) := by
  have he0 : (0 : ℚ) ≤ (if oh then (100 : ℚ) else 0) := by
    cases oh <;> norm_num
  have he1 : (if oh then (100 : ℚ) else 0) ≤ 100 := by
    cases oh <;> norm_num
  rw [calculateLeadStrength_eq, leadStrengthOfScore_score]
  refine ⟨?_, ?_, ?_, leadStrengthOfScore_hot _, leadStrengthOfScore_warm _,
    leadStrengthOfScore_cold _⟩
  · apply jsRound_nonneg
    nlinarith
  · apply jsRound_le
    push_cast
    nlinarith
  · congr 1
    ring

/-- Concrete metrics used to instantiate claim C9. -/
def leadMetricsSample : LeadMetrics := ⟨80, 90, 70, 60⟩

theorem claim_C9_witness :
    0 ≤ (calculateLeadStrength leadMetricsSample true).score ∧
    (calculateLeadStrength leadMetricsSample true).score ≤ 100 ∧
    ((calculateLeadStrength leadMetricsSample true).label = "Hot" ↔
      75 ≤ (calculateLeadStrength leadMetricsSample true).score) := by
  have h := claim_C9 leadMetricsSample true
    (by norm_num [leadMetricsSample]) (by norm_num [leadMetricsSample])
    (by norm_num [leadMetricsSample]) (by norm_num [leadMetricsSample])
    (by norm_num [leadMetricsSample]) (by norm_num [leadMetricsSample])
    (by norm_num [leadMetricsSample]) (by norm_num [leadMetricsSample])
  exact ⟨h.1, h.2.1, h.2.2.2.1⟩

end CallCopy
